import Mathlib

/-!
# Verification of the pygfx example regression harness

This file gives a shallow embedding of `examples/tests/test_examples.py`:
the screenshot comparison (`np.allclose` with `atol=1`), the diff-artifact
lifecycle (`update_diffs`), the screenshot test flow
(`test_examples_screenshots`), the subprocess execution check
(`test_examples_run`), and the marker-based example discovery
(`find_examples`, whose implementation lives in `examples/tests/testutils.py`
and is modelled from the spec).

Images are flattened lists of 8-bit channel samples (index `4*pixel + channel`
for RGBA data); machine reals appearing in the tolerance test are modelled
exactly over `ℚ` (for 8-bit integer inputs the float64 computation in
`np.isclose` is exact up to a perturbation of `rtol` that cannot change any
comparison outcome, see `npIsclose` below).  The filesystem is an association
list from path strings to file contents; fallible filesystem operations
(`Path.unlink` on a missing file raises) return `Option`.
-/

/-- A rendered image or stored screenshot: the flattened list of its 8-bit
channel samples (for an RGBA image, index `4*pixel + channel`). -/
abbrev Image := List Nat

/-- The filesystem state seen by the harness: an association list from file
path to file contents.  A path is present exactly when the file exists. -/
abbrev Fs := List (String × Image)

/-- `Path.exists()`: the path has an entry in the filesystem. -/
def Fs.fileExists (fs : Fs) (p : String) : Bool :=
  fs.any (fun e => e.1 = p)

/-- `imageio.imread`: the contents stored at `p`, if the file exists. -/
def Fs.readFile (fs : Fs) (p : String) : Option Image :=
  (fs.find? (fun e => e.1 = p)).map (fun e => e.2)

/-- `imageio.imwrite`: store `c` at `p`, replacing any existing file there. -/
def Fs.writeFile (fs : Fs) (p : String) (c : Image) : Fs :=
  (p, c) :: fs.filter (fun e => ¬ (e.1 = p))

/-- `Path.unlink()`: remove the file at `p`; raises (`none`) if it does not
exist. -/
def Fs.unlink (fs : Fs) (p : String) : Option Fs :=
  if fs.fileExists p then some (fs.filter (fun e => ¬ (e.1 = p))) else none

/-- NumPy's default relative tolerance `rtol=1.e-5`, left in effect by the
call `np.allclose(img, stored_img, atol=1)`. -/
def npRtol : ℚ := 1 / 100000

/-- The absolute tolerance passed by the harness: `atol=1`. -/
def npAtol : ℚ := 1

/-- One element of `np.isclose(img, stored_img, atol=1)` as evaluated inside
`np.allclose`, written exactly as in the NumPy source:
`absolute(x - y) <= atol + rtol * absolute(y)`.  NumPy casts `y` to float64
and evaluates in float64; for 8-bit inputs (`x, y ≤ 255`) the only rounding
is in `rtol * y` (of relative size `2⁻⁵²`), which cannot move an integer
`|x - y|` across the threshold, so the exact rational value is faithful. -/
def npIscloseSpec (x y : Nat) : Prop :=
  |(x : ℚ) - (y : ℚ)| ≤ npAtol + npRtol * |(y : ℚ)|

/-- Executable form of `npIscloseSpec`, the same inequality multiplied
through by `100000` so that it lives in integer arithmetic
(`npIsclose_iff_spec` proves the two agree). -/
def npIsclose (x y : Nat) : Bool :=
  decide (100000 * ((x : ℤ) - (y : ℤ)).natAbs ≤ 100000 + y)

/-- `np.allclose(img, stored_img, atol=1)` on two same-shaped flattened
images: every channel sample pair is close.  (`np.allclose` requires the
shapes to agree; the length check records that.) -/
def npAllclose (a b : Image) : Bool :=
  (a.length == b.length) && (List.zipWith npIsclose a b).all id

section Paths

/-! Directory names follow the spec's on-disk layout: reference screenshots
under a fixed `screenshots` directory, diffs under a fixed `diffs` directory
(`screenshots_dir` and `diffs_dir` come from `examples/tests/testutils.py`,
which is outside the visible sources). -/

/-- `screenshots_dir / f"{module}.png"`. -/
def screenshotPath (module : String) : String :=
  "screenshots/" ++ module ++ ".png"

/-- `diffs_dir / f"{module}-rgb.png"`. -/
def rgbDiffPath (module : String) : String :=
  "diffs/" ++ module ++ "-rgb.png"

/-- `diffs_dir / f"{module}-alpha.png"`. -/
def alphaDiffPath (module : String) : String :=
  "diffs/" ++ module ++ "-alpha.png"

end Paths

/-- The per-channel absolute difference `np.abs(stored_img.astype("f4") - img)`
of `update_diffs`.  The source then applies a monotone magnification
`((d / 255) ** 0.25) * 255` before saving; that float32 rescaling is for
human visibility only, no property here observes diff pixel values, and it
does not affect which files are written. -/
def diffsRgbaOf (stored_img img : Image) : Image :=
  List.zipWith (fun x y => max x y - min x y) stored_img img

/-- `diffs_rgba[..., :3]`: the RGB channels of flattened RGBA data. -/
def rgbPart : Image → Image
  | r :: g :: b :: _ :: rest => r :: g :: b :: rgbPart rest
  | _ => []

/-- `diffs_rgba[..., 3]`: the alpha channel of flattened RGBA data. -/
def alphaPart : Image → Image
  | _ :: _ :: _ :: a :: rest => a :: alphaPart rest
  | _ => []

/-- `update_diffs(module, is_similar, img, stored_img)`: writes the two diff
images when the comparison failed, and otherwise deletes each of them if it
exists on disk (`diffs_dir.mkdir(exist_ok=True)` only ensures the directory,
which the file model does not track).  `none` models an uncaught exception
(`Path.unlink` on a missing file). -/
def update_diffs (module : String) (is_similar : Bool) (img stored_img : Image)
    (fs : Fs) : Option Fs :=
  let diffs_rgba := diffsRgbaOf stored_img img
  let diffs : List (String × Image) :=
    [(rgbDiffPath module, rgbPart diffs_rgba),
     (alphaDiffPath module, alphaPart diffs_rgba)]
  diffs.foldlM
    (fun acc pd =>
      if ¬ is_similar then
        some (Fs.writeFile acc pd.1 pd.2)
      else if Fs.fileExists acc pd.1 then
        Fs.unlink acc pd.1
      else
        some acc)
    fs

/-- The assert message at the missing-reference check. -/
def missingRefMsg : String :=
  "found # test_example = true but no reference screenshot available"

/-- The assert message shown when the comparison fails (the f-string at the
end of `test_examples_screenshots`; `diffs_dir.relative_to(ROOT).as_posix()`
is the fixed diffs directory of the on-disk layout). -/
def dissimilarMsg (module : String) : String :=
  "rendered image for example " ++ module ++ " changed, see the diffs folder" ++
  " for visual diffs (you can download this folder from CI build artifacts as well)"

/-- Result of one screenshot test case. -/
inductive TestOutcome where
  /-- The `assert img is not None and img.size > 0` sanity check failed. -/
  | failEmptyRender
  /-- `pytest.skip` because the adapter is not lavapipe. -/
  | skipped
  /-- The `assert screenshot_path.exists()` hard failure. -/
  | failMissingRef (msg : String)
  /-- The `assert is_similar` failure. -/
  | failDissimilar (msg : String)
  /-- All assertions passed. -/
  | passed
deriving DecidableEq

/-- `test_examples_screenshots(module, ...)` after the render produced `img`:
the sanity assert, the lavapipe gate, the optional regeneration write, the
reference existence assert, the `np.allclose` comparison, `update_diffs`,
and the similarity assert, threading the filesystem state.  `none` models an
uncaught exception. -/
def test_examples_screenshots (module : String) (regenerate_screenshots : Bool)
    (is_lavapipe : Bool) (img : Image) (fs : Fs) : Option (TestOutcome × Fs) :=
  -- assert img is not None and img.size > 0
  if img.length = 0 then some (.failEmptyRender, fs)
  -- if not is_lavapipe: pytest.skip(...)
  else if ¬ is_lavapipe then some (.skipped, fs)
  else
    -- if pytestconfig.getoption("regenerate_screenshots"): imageio.imwrite(...)
    let fs1 := if regenerate_screenshots then
        Fs.writeFile fs (screenshotPath module) img
      else fs
    -- assert screenshot_path.exists()
    if ¬ Fs.fileExists fs1 (screenshotPath module) then
      some (.failMissingRef missingRefMsg, fs1)
    else
      match Fs.readFile fs1 (screenshotPath module) with
      | none => none
      | some stored_img =>
        let is_similar := npAllclose img stored_img
        match update_diffs module is_similar img stored_img fs1 with
        | none => none
        | some fs2 =>
          if is_similar then some (.passed, fs2)
          else some (.failDissimilar (dissimilarMsg module), fs2)

section RunCheck

/-- The `timeout=16` argument of `subprocess.run`. -/
def exampleTimeout : Nat := 16

/-- Observable behaviour of one example run as a subprocess: how long it
takes to finish, its exit code, and its combined stdout/stderr (the harness
pipes stderr into stdout). -/
structure ExampleProc where
  duration : Nat
  returncode : Int
  stdout : String

/-- Result of `subprocess.run(..., timeout=t)`: `TimeoutExpired` when the
process does not finish within the timeout, else the completed process. -/
inductive RunResult where
  | timedOut
  | completed (returncode : Int) (stdout : String)
deriving DecidableEq

/-- `subprocess.run` with a wall-clock timeout. -/
def subprocessRun (p : ExampleProc) (timeout : Nat) : RunResult :=
  if p.duration > timeout then .timedOut
  else .completed p.returncode p.stdout

/-- The `pytest.fail` message of the `TimeoutExpired` handler (two adjacent
string literals in the source, hence no space after the comma). -/
def timeoutMsg : String :=
  "opt-out by adding `# run_example = false` to the module docstring," ++
  "or use WgpuAutoGui to support WGPU_FORCE_OFFSCREEN"

/-- The assert message for a non-zero exit code: `f"failed to run:\n{result.stdout}"`. -/
def nonZeroExitMsg (stdout : String) : String :=
  "failed to run:\n" ++ stdout

/-- Result of one subprocess execution test case. -/
inductive RunOutcome where
  | passed
  | failed (msg : String)
deriving DecidableEq

/-- `test_examples_run(module, ...)`: run the example with `timeout=16`,
fail with the remediation message on timeout, fail with the captured output
on a non-zero exit code, pass otherwise. -/
def test_examples_run (p : ExampleProc) : RunOutcome :=
  match subprocessRun p exampleTimeout with
  | .timedOut => .failed timeoutMsg
  | .completed rc out => if rc = 0 then .passed else .failed (nonZeroExitMsg out)

end RunCheck

section Discovery

/-- An example script as discovery sees it: its filename stem and the lines
of its leading documentation text. -/
structure ExampleScript where
  stem : String
  leadingLines : List String
deriving DecidableEq

/-- Modelled from the spec: `find_examples` from `examples/tests/testutils.py`
is not among the visible sources.  Per the spec it walks the example scripts
and inspects each script's leading documentation text for literal marker
lines: a script is kept when it contains the `query` line (when given) and
does not contain the `negative_query` line (when given). -/
def find_examples (scripts : List ExampleScript) (query : Option String)
    (negative_query : Option String) : List ExampleScript :=
  scripts.filter (fun s =>
    (match query with
     | some q => s.leadingLines.contains q
     | none => true) &&
    (match negative_query with
     | some q => ¬ s.leadingLines.contains q
     | none => true))

/-- `examples_to_run = find_examples(negative_query="# run_example = false")`. -/
def examples_to_run (scripts : List ExampleScript) : List ExampleScript :=
  find_examples scripts none (some "# run_example = false")

/-- `examples_to_test = find_examples(query="# test_example = true",
return_stems=True)`: the stems of the scripts carrying the opt-in marker. -/
def examples_to_test (scripts : List ExampleScript) : List String :=
  (find_examples scripts (some "# test_example = true") none).map
    (fun s => s.stem)

/-- `examples/feature_demo/transparency1.py` as discovery sees it: its stem
and the lines of its leading documentation text (lines 1-11 of the file:
the module docstring and the two sphinx-gallery marker comments).  Neither
`# test_example = true` nor `# run_example = false` occurs anywhere in the
file. -/
def transparency1 : ExampleScript :=
  { stem := "transparency1"
    leadingLines :=
      ["\x22\x22\x22",
       "Transparency 1",
       "==============",
       "",
       "Example showing transparency using three overlapping planes.",
       "Press space to toggle the order of the planes.",
       "Press 1-6 to select the blend mode.",
       "\x22\x22\x22",
       "",
       "# sphinx_gallery_pygfx_docs = \x27screenshot\x27",
       "# sphinx_gallery_pygfx_test = \x27run\x27"] }

end Discovery

/-! ## Filesystem lemmas -/

theorem any_filter_of_imp {α : Type} (l : List α) (f g : α → Bool)
    (h : ∀ a, g a = true → f a = true) :
    (l.filter f).any g = l.any g := by
  induction l with
  | nil => rfl
  | cons e t ih =>
    rw [List.filter_cons]
    by_cases hf : f e = true
    · rw [if_pos hf, List.any_cons, List.any_cons, ih]
    · have hg : g e = false := by
        cases hge : g e
        · rfl
        · exact absurd (h e hge) hf
      rw [if_neg hf, List.any_cons, hg, Bool.false_or, ih]

theorem any_filter_incompat {α : Type} (l : List α) (f g : α → Bool)
    (h : ∀ a, f a = true → g a = false) :
    (l.filter f).any g = false := by
  induction l with
  | nil => rfl
  | cons e t ih =>
    rw [List.filter_cons]
    by_cases hf : f e = true
    · rw [if_pos hf, List.any_cons, h e hf, Bool.false_or, ih]
    · rw [if_neg hf, ih]

theorem find?_filter_of_imp {α : Type} (l : List α) (f g : α → Bool)
    (h : ∀ a, g a = true → f a = true) :
    (l.filter f).find? g = l.find? g := by
  induction l with
  | nil => rfl
  | cons e t ih =>
    rw [List.filter_cons]
    by_cases hg : g e = true
    · rw [if_pos (h e hg), List.find?_cons_of_pos _ hg, List.find?_cons_of_pos _ hg]
    · have hg2 : g e = false := by cases hge : g e <;> simp_all
      by_cases hf : f e = true
      · rw [if_pos hf, List.find?_cons_of_neg _ (by simp [hg2]),
          List.find?_cons_of_neg _ (by simp [hg2]), ih]
      · rw [if_neg hf, List.find?_cons_of_neg _ (by simp [hg2]), ih]

theorem Fs.fileExists_filter_self (fs : Fs) (p : String) :
    Fs.fileExists (fs.filter (fun e => ¬ (e.1 = p))) p = false := by
  refine any_filter_incompat fs _ _ (fun a ha => ?_)
  simp at ha
  simp [Fs.fileExists, ha]

theorem Fs.fileExists_filter_ne (fs : Fs) (p q : String) (h : q ≠ p) :
    Fs.fileExists (fs.filter (fun e => ¬ (e.1 = p))) q = fs.fileExists q := by
  refine any_filter_of_imp fs _ _ (fun a ha => ?_)
  simp at ha
  simp [ha]
  exact h

theorem Fs.readFile_filter_ne (fs : Fs) (p q : String) (h : q ≠ p) :
    Fs.readFile (fs.filter (fun e => ¬ (e.1 = p))) q = fs.readFile q := by
  unfold Fs.readFile
  rw [find?_filter_of_imp fs _ _ (fun a ha => ?_)]
  simp at ha
  simp [ha]
  exact h

theorem Fs.fileExists_writeFile_self (fs : Fs) (p : String) (c : Image) :
    Fs.fileExists (fs.writeFile p c) p = true := by
  simp [Fs.writeFile, Fs.fileExists]

theorem Fs.fileExists_writeFile_ne (fs : Fs) (p q : String) (c : Image)
    (h : q ≠ p) :
    Fs.fileExists (fs.writeFile p c) q = fs.fileExists q := by
  show ((p, c) :: fs.filter (fun e => ¬ (e.1 = p))).any (fun e => e.1 = q)
      = fs.fileExists q
  rw [List.any_cons]
  have h1 : (decide ((p, c).1 = q)) = false := decide_eq_false (fun hq => h hq.symm)
  rw [h1, Bool.false_or]
  exact Fs.fileExists_filter_ne fs p q h

theorem Fs.readFile_writeFile_self (fs : Fs) (p : String) (c : Image) :
    Fs.readFile (fs.writeFile p c) p = some c := by
  show (List.find? (fun e => e.1 = p) ((p, c) :: _)).map _ = some c
  rw [List.find?_cons_of_pos _ (by simp)]
  rfl

theorem Fs.readFile_writeFile_ne (fs : Fs) (p q : String) (c : Image)
    (h : q ≠ p) :
    Fs.readFile (fs.writeFile p c) q = fs.readFile q := by
  show (List.find? (fun e => e.1 = q)
      ((p, c) :: fs.filter (fun e => ¬ (e.1 = p)))).map (fun e => e.2)
      = fs.readFile q
  rw [List.find?_cons_of_neg _ (by simp; exact fun hq => h hq.symm)]
  exact Fs.readFile_filter_ne fs p q h

theorem Fs.readFile_isSome_of_fileExists (fs : Fs) (p : String)
    (h : fs.fileExists p = true) : ∃ c, fs.readFile p = some c := by
  induction fs with
  | nil => simp [Fs.fileExists] at h
  | cons e t ih =>
    by_cases he : e.1 = p
    · exact ⟨e.2, by simp [Fs.readFile, List.find?, he]⟩
    · simp [Fs.fileExists, he] at h
      obtain ⟨c, hc⟩ := ih (by simpa [Fs.fileExists] using h)
      exact ⟨c, by simpa [Fs.readFile, List.find?, he] using hc⟩

/-! ## Path distinctness -/

theorem rgbDiffPath_ne_alphaDiffPath (m : String) :
    rgbDiffPath m ≠ alphaDiffPath m := by
  intro h
  have h2 := congrArg String.length h
  have e1 : ("diffs/" : String).length = 6 := by decide
  have e2 : ("-rgb.png" : String).length = 8 := by decide
  have e3 : ("-alpha.png" : String).length = 10 := by decide
  simp only [rgbDiffPath, alphaDiffPath, String.length_append, e1, e2, e3] at h2
  omega

theorem screenshotPath_ne_rgbDiffPath (m : String) :
    screenshotPath m ≠ rgbDiffPath m := by
  intro h
  have h2 := congrArg String.data h
  simp only [screenshotPath, rgbDiffPath, String.data_append] at h2
  have h3 := congrArg List.head? h2
  simp at h3

theorem screenshotPath_ne_alphaDiffPath (m : String) :
    screenshotPath m ≠ alphaDiffPath m := by
  intro h
  have h2 := congrArg String.data h
  simp only [screenshotPath, alphaDiffPath, String.data_append] at h2
  have h3 := congrArg List.head? h2
  simp at h3

/-! ## The two branches of `update_diffs` -/

/-- Proof helper naming the pass-branch effect of the `update_diffs` loop on
one path: delete the file if it exists, else leave the state alone. -/
def Fs.eraseIfExists (fs : Fs) (p : String) : Fs :=
  if fs.fileExists p then fs.filter (fun e => ¬ (e.1 = p)) else fs

theorem Fs.fileExists_eraseIfExists_self (fs : Fs) (p : String) :
    Fs.fileExists (fs.eraseIfExists p) p = false := by
  unfold Fs.eraseIfExists
  by_cases h : fs.fileExists p = true
  · rw [if_pos h]
    exact Fs.fileExists_filter_self fs p
  · rw [if_neg h]
    exact Bool.not_eq_true _ ▸ h

theorem Fs.fileExists_eraseIfExists_ne (fs : Fs) (p q : String) (h : q ≠ p) :
    Fs.fileExists (fs.eraseIfExists p) q = fs.fileExists q := by
  unfold Fs.eraseIfExists
  by_cases hp : fs.fileExists p = true
  · rw [if_pos hp]
    exact Fs.fileExists_filter_ne fs p q h
  · rw [if_neg hp]

theorem Fs.readFile_eraseIfExists_ne (fs : Fs) (p q : String) (h : q ≠ p) :
    Fs.readFile (fs.eraseIfExists p) q = fs.readFile q := by
  unfold Fs.eraseIfExists
  by_cases hp : fs.fileExists p = true
  · rw [if_pos hp]
    exact Fs.readFile_filter_ne fs p q h
  · rw [if_neg hp]

theorem Fs.eraseIfExists_of_not_exists (fs : Fs) (p : String)
    (h : fs.fileExists p = false) : fs.eraseIfExists p = fs := by
  unfold Fs.eraseIfExists
  rw [h]
  rfl

theorem update_diffs_not_similar (module : String) (img stored_img : Image)
    (fs : Fs) :
    update_diffs module false img stored_img fs =
      some (Fs.writeFile
        (Fs.writeFile fs (rgbDiffPath module)
          (rgbPart (diffsRgbaOf stored_img img)))
        (alphaDiffPath module) (alphaPart (diffsRgbaOf stored_img img))) := by
  rfl

theorem ite_unlink_helper {C : Prop} [Decidable C] (X Y : Fs) :
    (if C then (if C then some X else none) else some Y)
      = some (if C then X else Y) := by
  by_cases h : C <;> simp [h]

theorem update_diffs_similar (module : String) (img stored_img : Image)
    (fs : Fs) :
    update_diffs module true img stored_img fs =
      some (Fs.eraseIfExists (Fs.eraseIfExists fs (rgbDiffPath module))
        (alphaDiffPath module)) := by
  simp only [update_diffs, List.foldlM, Fs.eraseIfExists, Fs.unlink,
    Bool.not_eq_true, not_true, if_false, Bool.true_eq_false, ite_false,
    Option.bind_eq_bind]
  rw [ite_unlink_helper, Option.some_bind, ite_unlink_helper, Option.some_bind]
  rfl

/-! ## Tolerance lemmas for `np.allclose` -/

theorem natAbs_cast_sub_eq_abs (x y : Nat) :
    (((x : ℤ) - (y : ℤ)).natAbs : ℚ) = |(x : ℚ) - (y : ℚ)| := by
  rw [Int.cast_natAbs]
  push_cast
  ring_nf

theorem npIsclose_iff_spec (x y : Nat) :
    npIsclose x y = true ↔ npIscloseSpec x y := by
  unfold npIsclose npIscloseSpec npAtol npRtol
  rw [decide_eq_true_eq]
  have habs : |(y : ℚ)| = (y : ℚ) := abs_of_nonneg (by positivity)
  rw [habs, ← natAbs_cast_sub_eq_abs]
  constructor
  · intro h
    have hq : (100000 : ℚ) * (((x : ℤ) - (y : ℤ)).natAbs : ℚ)
        ≤ 100000 + (y : ℚ) := by exact_mod_cast h
    linarith
  · intro h
    have hq : (100000 : ℚ) * (((x : ℤ) - (y : ℤ)).natAbs : ℚ)
        ≤ 100000 + (y : ℚ) := by linarith
    exact_mod_cast hq

theorem npIsclose_of_diff_le_one (x y : Nat)
    (h : ((x : ℤ) - (y : ℤ)).natAbs ≤ 1) : npIsclose x y = true := by
  unfold npIsclose
  rw [decide_eq_true_eq]
  omega

theorem npIsclose_eq_false_of_two_le (x y : Nat) (hy : y ≤ 255)
    (h : 2 ≤ ((x : ℤ) - (y : ℤ)).natAbs) : npIsclose x y = false := by
  unfold npIsclose
  rw [decide_eq_false_iff_not]
  omega

theorem npIsclose_self (x : Nat) : npIsclose x x = true :=
  npIsclose_of_diff_le_one x x (by simp)

theorem all_zipWith_iff (f : Nat → Nat → Bool) :
    ∀ (a b : List Nat), ((List.zipWith f a b).all id = true ↔
      ∀ p ∈ a.zip b, f p.1 p.2 = true) := by
  intro a
  induction a with
  | nil => intro b; simp
  | cons x xs ih =>
    intro b
    cases b with
    | nil => simp
    | cons y ys =>
      simp only [List.zipWith, List.zip_cons_cons, List.all_cons, id,
        Bool.and_eq_true, List.mem_cons, ih ys]
      constructor
      · rintro ⟨hf, hrest⟩ p hp
        rcases hp with hp | hp
        · rw [hp]
          exact hf
        · exact hrest p hp
      · intro hall
        exact ⟨hall (x, y) (Or.inl rfl), fun p hp => hall p (Or.inr hp)⟩

theorem npAllclose_iff (a b : Image) :
    npAllclose a b = true ↔
      (a.length = b.length ∧ ∀ p ∈ a.zip b, npIsclose p.1 p.2 = true) := by
  unfold npAllclose
  rw [Bool.and_eq_true, beq_iff_eq, all_zipWith_iff]

theorem npAllclose_self (a : Image) : npAllclose a a = true := by
  rw [npAllclose_iff]
  refine ⟨rfl, ?_⟩
  induction a with
  | nil => simp
  | cons x xs ih =>
    intro p hp
    rw [List.zip_cons_cons] at hp
    rcases List.mem_cons.mp hp with h | h
    · rw [h]
      exact npIsclose_self x
    · exact ih p h

/-- C1: for every pair of same-shaped 8-bit RGBA images (rendered image `a`
and stored reference `b`), `np.allclose(a, b, atol=1)` judges them similar
whenever every per-pixel per-channel absolute difference is at most 1 (a
difference of exactly the tolerance value 1 is similar), and judges them
dissimilar whenever any per-pixel per-channel absolute difference is 2 or
more; the tolerance applies to all four channels including alpha (the flat
sample lists range over every channel of every pixel). -/
theorem allclose_tolerance_boundary (a b : Image)
    (hlen : a.length = b.length) (_hshape : a.length % 4 = 0)
    (_ha : ∀ v ∈ a, v ≤ 255) (hb : ∀ v ∈ b, v ≤ 255) :
    ((∀ p ∈ a.zip b, ((p.1 : ℤ) - (p.2 : ℤ)).natAbs ≤ 1) →
        npAllclose a b = true) ∧
    ((∃ p ∈ a.zip b, 2 ≤ ((p.1 : ℤ) - (p.2 : ℤ)).natAbs) →
        npAllclose a b = false) := by
  constructor
  · intro h
    rw [npAllclose_iff]
    exact ⟨hlen, fun p hp => npIsclose_of_diff_le_one p.1 p.2 (h p hp)⟩
  · rintro ⟨⟨x, y⟩, hp, h2⟩
    cases hcl : npAllclose a b
    · rfl
    · exfalso
      have hall := ((npAllclose_iff a b).mp hcl).2 (x, y) hp
      have hyb : y ≤ 255 := hb y (List.of_mem_zip hp).2
      rw [npIsclose_eq_false_of_two_le x y hyb h2] at hall
      exact Bool.false_ne_true hall

/-- Witness for C1 at concrete images: differences of exactly 1 in every
channel are similar; a difference of 2 in the alpha channel alone is
dissimilar. -/
theorem allclose_tolerance_boundary_witness :
    npAllclose [0, 255, 17, 1] [1, 254, 17, 0] = true ∧
    npAllclose [5, 5, 5, 0] [5, 5, 5, 2] = false :=
  ⟨(allclose_tolerance_boundary [0, 255, 17, 1] [1, 254, 17, 0]
      (by decide) (by decide) (by decide) (by decide)).1 (by decide),
   (allclose_tolerance_boundary [5, 5, 5, 0] [5, 5, 5, 2]
      (by decide) (by decide) (by decide) (by decide)).2
      ⟨(0, 2), by decide, by decide⟩⟩

/-! ## Characterizing the screenshot test flow -/

theorem Fs.fileExists_of_readFile_some (fs : Fs) (p : String) (c : Image)
    (h : fs.readFile p = some c) : fs.fileExists p = true := by
  induction fs with
  | nil => simp [Fs.readFile] at h
  | cons e t ih =>
    by_cases he : e.1 = p
    · simp [Fs.fileExists, List.any_cons, he]
    · have h2 : Fs.readFile t p = some c := by
        unfold Fs.readFile at h ⊢
        rwa [List.find?_cons_of_neg _ (by simp [he])] at h
      have ht : (t.any fun x => decide (x.1 = p)) = true := ih h2
      simp [Fs.fileExists, List.any_cons, he, ht]

/-- The screenshot test on the lavapipe adapter with a non-empty render and a
readable reference: the comparison runs and `update_diffs` rewrites the diff
files, with the branch decided by `np.allclose`. -/
theorem test_screenshots_main (module : String) (regenerate : Bool)
    (img : Image) (fs : Fs) (himg : img ≠ []) (stored : Image)
    (hread : Fs.readFile
      (if regenerate then Fs.writeFile fs (screenshotPath module) img else fs)
      (screenshotPath module) = some stored) :
    test_examples_screenshots module regenerate true img fs =
      (if npAllclose img stored then
        some (TestOutcome.passed,
          Fs.eraseIfExists (Fs.eraseIfExists
            (if regenerate then Fs.writeFile fs (screenshotPath module) img
              else fs)
            (rgbDiffPath module)) (alphaDiffPath module))
      else
        some (TestOutcome.failDissimilar (dissimilarMsg module),
          Fs.writeFile (Fs.writeFile
            (if regenerate then Fs.writeFile fs (screenshotPath module) img
              else fs)
            (rgbDiffPath module) (rgbPart (diffsRgbaOf stored img)))
            (alphaDiffPath module) (alphaPart (diffsRgbaOf stored img)))) := by
  unfold test_examples_screenshots
  rw [if_neg (fun hl => himg (List.length_eq_zero.mp hl))]
  rw [if_neg (by simp)]
  simp only []
  rw [if_neg (by simp [Fs.fileExists_of_readFile_some _ _ _ hread])]
  rw [hread]
  simp only []
  cases hsim : npAllclose img stored
  · rw [update_diffs_not_similar]
    simp
  · rw [update_diffs_similar]
    simp

theorem test_screenshots_empty_render (module : String) (regenerate lava : Bool)
    (fs : Fs) :
    test_examples_screenshots module regenerate lava [] fs =
      some (TestOutcome.failEmptyRender, fs) := rfl

theorem test_screenshots_not_lavapipe (module : String) (regenerate : Bool)
    (img : Image) (fs : Fs) (himg : img ≠ []) :
    test_examples_screenshots module regenerate false img fs =
      some (TestOutcome.skipped, fs) := by
  unfold test_examples_screenshots
  rw [if_neg (fun hl => himg (List.length_eq_zero.mp hl)), if_pos (by simp)]

theorem test_screenshots_missing_ref (module : String) (regenerate : Bool)
    (img : Image) (fs : Fs) (himg : img ≠ [])
    (href : Fs.fileExists
      (if regenerate then Fs.writeFile fs (screenshotPath module) img else fs)
      (screenshotPath module) = false) :
    test_examples_screenshots module regenerate true img fs =
      some (TestOutcome.failMissingRef missingRefMsg,
        if regenerate then Fs.writeFile fs (screenshotPath module) img
          else fs) := by
  unfold test_examples_screenshots
  rw [if_neg (fun hl => himg (List.length_eq_zero.mp hl))]
  rw [if_neg (by simp)]
  simp only []
  rw [if_pos (by simp [href])]

/-- C2: for every screenshot comparison that completes (lavapipe adapter,
non-empty render, readable reference), the diff artifacts for the identifier
exist on disk afterwards if and only if the comparison failed: a failing
comparison writes both the `-rgb` and `-alpha` diff files, and a passing
comparison deletes any previously written diff files, so no diff artifact of
a passing comparison remains. -/
theorem diff_artifacts_iff_comparison_failed (module : String)
    (regenerate : Bool) (img : Image) (fs : Fs) (himg : img ≠ [])
    (href : Fs.fileExists
      (if regenerate then Fs.writeFile fs (screenshotPath module) img else fs)
      (screenshotPath module) = true) :
    ∀ out fs2,
      test_examples_screenshots module regenerate true img fs
        = some (out, fs2) →
      (out = TestOutcome.passed ∨
        out = TestOutcome.failDissimilar (dissimilarMsg module)) ∧
      (Fs.fileExists fs2 (rgbDiffPath module) = true ↔
        out ≠ TestOutcome.passed) ∧
      (Fs.fileExists fs2 (alphaDiffPath module) = true ↔
        out ≠ TestOutcome.passed) := by
  intro out fs2 hrun
  obtain ⟨stored, hread⟩ := Fs.readFile_isSome_of_fileExists _ _ href
  rw [test_screenshots_main module regenerate img fs himg stored hread] at hrun
  cases hsim : npAllclose img stored <;> rw [hsim] at hrun
  · rw [if_neg (by simp)] at hrun
    rw [Option.some.injEq, Prod.mk.injEq] at hrun
    obtain ⟨hout, hfs⟩ := hrun
    subst hout
    subst hfs
    refine ⟨Or.inr rfl, ?_, ?_⟩
    · rw [Fs.fileExists_writeFile_ne _ _ _ _ (rgbDiffPath_ne_alphaDiffPath module),
        Fs.fileExists_writeFile_self]
      simp
    · rw [Fs.fileExists_writeFile_self]
      simp
  · rw [if_pos (by simp)] at hrun
    rw [Option.some.injEq, Prod.mk.injEq] at hrun
    obtain ⟨hout, hfs⟩ := hrun
    subst hout
    subst hfs
    refine ⟨Or.inl rfl, ?_, ?_⟩
    · rw [Fs.fileExists_eraseIfExists_ne _ _ _ (rgbDiffPath_ne_alphaDiffPath module),
        Fs.fileExists_eraseIfExists_self]
      simp
    · rw [Fs.fileExists_eraseIfExists_self]
      simp

/-- Witness for C2: a passing run (identical render and reference) ends with
no diff artifacts on disk. -/
theorem diff_artifacts_iff_comparison_failed_witness :
    (TestOutcome.passed = TestOutcome.passed ∨
      TestOutcome.passed = TestOutcome.failDissimilar (dissimilarMsg "m")) ∧
    (Fs.fileExists [(screenshotPath "m", [1, 2, 3, 4])] (rgbDiffPath "m")
        = true ↔ TestOutcome.passed ≠ TestOutcome.passed) ∧
    (Fs.fileExists [(screenshotPath "m", [1, 2, 3, 4])] (alphaDiffPath "m")
        = true ↔ TestOutcome.passed ≠ TestOutcome.passed) :=
  diff_artifacts_iff_comparison_failed "m" false [1, 2, 3, 4]
    [(screenshotPath "m", [1, 2, 3, 4])] (by decide) (by decide)
    TestOutcome.passed [(screenshotPath "m", [1, 2, 3, 4])] (by decide)

/-- C3 counterexample: a run with the regenerate option set but on a
non-lavapipe adapter skips before reaching the write, so the freshly
rendered image does not overwrite the stored reference (here the reference
still does not exist afterwards), refuting "in every such run, regardless
of GPU backend". -/
theorem reference_written_iff_regenerate_counterexample :
    test_examples_screenshots "m" true false [5, 5, 5, 5] [] =
      some (TestOutcome.skipped, []) ∧
    Fs.readFile ([] : Fs) (screenshotPath "m") = none :=
  ⟨by decide, rfl⟩

/-- C3 (amended): a screenshot-test run without the regenerate option never
creates or modifies the reference file; with the regenerate option, the
freshly rendered image overwrites the stored reference in every run that
reaches the write (lavapipe adapter and non-empty render), regardless of
the comparison outcome; on a non-lavapipe adapter the skip happens before
the write, leaving the filesystem untouched. -/
theorem reference_written_iff_regenerate (module : String)
    (is_lavapipe : Bool) (img : Image) (fs : Fs) :
    (∀ out fs2,
      test_examples_screenshots module false is_lavapipe img fs
        = some (out, fs2) →
      Fs.readFile fs2 (screenshotPath module)
        = Fs.readFile fs (screenshotPath module)) ∧
    (img ≠ [] → ∀ out fs2,
      test_examples_screenshots module true true img fs = some (out, fs2) →
      Fs.readFile fs2 (screenshotPath module) = some img) ∧
    (img ≠ [] → ∀ out fs2,
      test_examples_screenshots module true false img fs = some (out, fs2) →
      fs2 = fs) := by
  refine ⟨?_, ?_, ?_⟩
  · intro out fs2 hrun
    by_cases himg : img = []
    · subst himg
      rw [test_screenshots_empty_render] at hrun
      rw [Option.some.injEq, Prod.mk.injEq] at hrun
      rw [← hrun.2]
    · cases is_lavapipe with
      | false =>
        rw [test_screenshots_not_lavapipe module false img fs himg] at hrun
        rw [Option.some.injEq, Prod.mk.injEq] at hrun
        rw [← hrun.2]
      | true =>
        by_cases href : Fs.fileExists fs (screenshotPath module) = true
        · obtain ⟨stored, hread⟩ := Fs.readFile_isSome_of_fileExists _ _ href
          rw [test_screenshots_main module false img fs himg stored hread]
            at hrun
          cases hsim : npAllclose img stored <;> rw [hsim] at hrun
          · rw [if_neg (by simp)] at hrun
            rw [Option.some.injEq, Prod.mk.injEq] at hrun
            rw [← hrun.2]
            rw [Fs.readFile_writeFile_ne _ _ _ _
                (screenshotPath_ne_alphaDiffPath module),
              Fs.readFile_writeFile_ne _ _ _ _
                (screenshotPath_ne_rgbDiffPath module)]
            rfl
          · rw [if_pos rfl] at hrun
            rw [Option.some.injEq, Prod.mk.injEq] at hrun
            rw [← hrun.2]
            rw [Fs.readFile_eraseIfExists_ne _ _ _
                (screenshotPath_ne_alphaDiffPath module),
              Fs.readFile_eraseIfExists_ne _ _ _
                (screenshotPath_ne_rgbDiffPath module)]
            rfl
        · have href2 : Fs.fileExists fs (screenshotPath module) = false :=
            Bool.eq_false_iff.mpr href
          rw [test_screenshots_missing_ref module false img fs himg href2]
            at hrun
          rw [Option.some.injEq, Prod.mk.injEq] at hrun
          rw [← hrun.2]
          rfl
  · intro himg out fs2 hrun
    have hread : Fs.readFile
        (Fs.writeFile fs (screenshotPath module) img)
        (screenshotPath module) = some img :=
      Fs.readFile_writeFile_self fs (screenshotPath module) img
    rw [test_screenshots_main module true img fs himg img hread] at hrun
    rw [npAllclose_self, if_pos rfl] at hrun
    rw [Option.some.injEq, Prod.mk.injEq] at hrun
    rw [← hrun.2]
    rw [Fs.readFile_eraseIfExists_ne _ _ _
        (screenshotPath_ne_alphaDiffPath module),
      Fs.readFile_eraseIfExists_ne _ _ _
        (screenshotPath_ne_rgbDiffPath module)]
    exact hread
  · intro himg out fs2 hrun
    rw [test_screenshots_not_lavapipe module true img fs himg] at hrun
    rw [Option.some.injEq, Prod.mk.injEq] at hrun
    exact hrun.2.symm

/-- Witness for C3 (amended): regenerating on lavapipe from an empty
filesystem leaves the rendered image stored as the reference. -/
theorem reference_written_iff_regenerate_witness :
    Fs.readFile [(screenshotPath "m", [7])] (screenshotPath "m") = some [7] :=
  (reference_written_iff_regenerate "m" true [7] []).2.1 (by decide)
    TestOutcome.passed [(screenshotPath "m", [7])] (by decide)

/-- C4: for an opted-in example run on lavapipe without regeneration, a
missing reference screenshot is a hard assertion failure carrying the
message naming the missing reference, never a skip or a pass; the pixel
comparison is not performed (the filesystem is left untouched, so no diff
artifact is written). -/
theorem missing_reference_hard_failure (module : String) (img : Image)
    (fs : Fs) (himg : img ≠ [])
    (hmissing : Fs.fileExists fs (screenshotPath module) = false) :
    test_examples_screenshots module false true img fs =
      some (TestOutcome.failMissingRef missingRefMsg, fs) :=
  test_screenshots_missing_ref module false img fs himg hmissing

/-- Witness for C4: a run with no reference on disk fails with the
missing-reference message and leaves the filesystem empty. -/
theorem missing_reference_hard_failure_witness :
    test_examples_screenshots "m" false true [1] [] =
      some (TestOutcome.failMissingRef missingRefMsg, []) :=
  missing_reference_hard_failure "m" [1] [] (by decide) (by decide)

/-- C5: round trip: writing a rendered image as the reference in
regeneration mode and immediately comparing that same image against the
freshly written reference yields similar: the run passes and no diff
artifacts remain on disk. -/
theorem regenerate_roundtrip (module : String) (img : Image) (fs : Fs)
    (himg : img ≠ []) :
    ∃ fs2,
      test_examples_screenshots module true true img fs
        = some (TestOutcome.passed, fs2) ∧
      Fs.readFile fs2 (screenshotPath module) = some img ∧
      Fs.fileExists fs2 (rgbDiffPath module) = false ∧
      Fs.fileExists fs2 (alphaDiffPath module) = false := by
  have hread : Fs.readFile (Fs.writeFile fs (screenshotPath module) img)
      (screenshotPath module) = some img :=
    Fs.readFile_writeFile_self fs (screenshotPath module) img
  refine ⟨Fs.eraseIfExists (Fs.eraseIfExists
      (Fs.writeFile fs (screenshotPath module) img) (rgbDiffPath module))
      (alphaDiffPath module), ?_, ?_, ?_, ?_⟩
  · rw [test_screenshots_main module true img fs himg img hread,
      npAllclose_self, if_pos rfl]
    rfl
  · rw [Fs.readFile_eraseIfExists_ne _ _ _
        (screenshotPath_ne_alphaDiffPath module),
      Fs.readFile_eraseIfExists_ne _ _ _
        (screenshotPath_ne_rgbDiffPath module)]
    exact hread
  · rw [Fs.fileExists_eraseIfExists_ne _ _ _
      (rgbDiffPath_ne_alphaDiffPath module)]
    exact Fs.fileExists_eraseIfExists_self _ _
  · exact Fs.fileExists_eraseIfExists_self _ _

/-- Witness for C5 at a concrete render. -/
theorem regenerate_roundtrip_witness :
    ∃ fs2,
      test_examples_screenshots "m" true true [9, 8, 7, 6] []
        = some (TestOutcome.passed, fs2) ∧
      Fs.readFile fs2 (screenshotPath "m") = some [9, 8, 7, 6] ∧
      Fs.fileExists fs2 (rgbDiffPath "m") = false ∧
      Fs.fileExists fs2 (alphaDiffPath "m") = false :=
  regenerate_roundtrip "m" [9, 8, 7, 6] [] (by decide)

/-- C9: with regeneration requested on lavapipe and a non-empty render, the
missing-reference failure branch is unreachable: the rendered image is
written to the reference path before the existence check, so the existence
assertion always succeeds. -/
theorem regenerate_missing_branch_unreachable (module : String)
    (img : Image) (fs : Fs) (himg : img ≠ []) :
    Fs.fileExists (Fs.writeFile fs (screenshotPath module) img)
      (screenshotPath module) = true ∧
    ∀ out fs2,
      test_examples_screenshots module true true img fs = some (out, fs2) →
      ∀ msg, out ≠ TestOutcome.failMissingRef msg := by
  refine ⟨Fs.fileExists_writeFile_self fs _ img, ?_⟩
  intro out fs2 hrun msg
  have hread : Fs.readFile (Fs.writeFile fs (screenshotPath module) img)
      (screenshotPath module) = some img :=
    Fs.readFile_writeFile_self fs (screenshotPath module) img
  rw [test_screenshots_main module true img fs himg img hread] at hrun
  rw [npAllclose_self, if_pos rfl] at hrun
  rw [Option.some.injEq, Prod.mk.injEq] at hrun
  rw [← hrun.1]
  exact fun h => TestOutcome.noConfusion h

/-- Witness for C9 at a concrete render: the reference exists after the
write and the concrete run's outcome is not the missing-reference failure. -/
theorem regenerate_missing_branch_unreachable_witness :
    Fs.fileExists (Fs.writeFile [] (screenshotPath "m") [3])
      (screenshotPath "m") = true ∧
    TestOutcome.passed ≠ TestOutcome.failMissingRef missingRefMsg :=
  ⟨(regenerate_missing_branch_unreachable "m" [3] [] (by decide)).1,
   (regenerate_missing_branch_unreachable "m" [3] [] (by decide)).2
     TestOutcome.passed [(screenshotPath "m", [3])] (by decide) missingRefMsg⟩

/-- C10: a passing comparison for an identifier with no previously written
diff artifacts completes without error and changes nothing: the deletion in
`update_diffs` is guarded by a per-file existence check, so nothing is
written and nothing is deleted. -/
theorem passing_no_preexisting_diffs_noop (module : String)
    (img stored_img : Image) (fs : Fs)
    (h1 : Fs.fileExists fs (rgbDiffPath module) = false)
    (h2 : Fs.fileExists fs (alphaDiffPath module) = false) :
    update_diffs module true img stored_img fs = some fs := by
  rw [update_diffs_similar,
    Fs.eraseIfExists_of_not_exists fs _ h1,
    Fs.eraseIfExists_of_not_exists fs _ h2]

/-- Witness for C10 with only the reference file on disk. -/
theorem passing_no_preexisting_diffs_noop_witness :
    update_diffs "m" true [1, 2, 3, 4] [1, 2, 3, 4]
      [(screenshotPath "m", [1, 2, 3, 4])] =
      some [(screenshotPath "m", [1, 2, 3, 4])] :=
  passing_no_preexisting_diffs_noop "m" [1, 2, 3, 4] [1, 2, 3, 4]
    [(screenshotPath "m", [1, 2, 3, 4])] (by decide) (by decide)

/-- C6: `test_examples_run` uses a wall-clock timeout of 16 time units; a
timeout fails with the distinct remediation message (naming the opt-out
marker and the headless-mode path), which is never equal to any
non-zero-exit failure message; a non-zero exit code fails with the captured
combined output; exit code zero within the timeout is the only way to
pass. -/
theorem run_check_semantics (p : ExampleProc) :
    exampleTimeout = 16 ∧
    (p.duration > exampleTimeout →
      test_examples_run p = RunOutcome.failed timeoutMsg) ∧
    (p.duration ≤ exampleTimeout → p.returncode ≠ 0 →
      test_examples_run p = RunOutcome.failed (nonZeroExitMsg p.stdout)) ∧
    (test_examples_run p = RunOutcome.passed ↔
      p.duration ≤ exampleTimeout ∧ p.returncode = 0) ∧
    (∀ s, timeoutMsg ≠ nonZeroExitMsg s) := by
  refine ⟨rfl, ?_, ?_, ?_, ?_⟩
  · intro h
    unfold test_examples_run subprocessRun
    rw [if_pos h]
  · intro h hrc
    unfold test_examples_run subprocessRun
    rw [if_neg (by omega)]
    simp only []
    rw [if_neg hrc]
  · constructor
    · intro h
      unfold test_examples_run subprocessRun at h
      by_cases hd : p.duration > exampleTimeout
      · rw [if_pos hd] at h
        simp at h
      · rw [if_neg hd] at h
        simp only [] at h
        by_cases hrc : p.returncode = 0
        · exact ⟨by omega, hrc⟩
        · rw [if_neg hrc] at h
          simp at h
    · rintro ⟨hd, hrc⟩
      unfold test_examples_run subprocessRun
      rw [if_neg (by omega)]
      simp only []
      rw [if_pos hrc]
  · intro s heq
    have h2 := congrArg String.data heq
    simp only [timeoutMsg, nonZeroExitMsg, String.data_append] at h2
    have h3 := congrArg List.head? h2
    simp at h3

/-- Witness for C6: a 17-unit run times out with the remediation message, a
crashing run fails with its captured output, a clean run passes. -/
theorem run_check_semantics_witness :
    test_examples_run ⟨17, 0, ""⟩ = RunOutcome.failed timeoutMsg ∧
    test_examples_run ⟨3, 1, "boom"⟩
      = RunOutcome.failed (nonZeroExitMsg "boom") ∧
    test_examples_run ⟨3, 0, ""⟩ = RunOutcome.passed :=
  ⟨(run_check_semantics ⟨17, 0, ""⟩).2.1 (by decide),
   (run_check_semantics ⟨3, 1, "boom"⟩).2.2.1 (by decide) (by decide),
   (run_check_semantics ⟨3, 0, ""⟩).2.2.2.1.mpr ⟨by decide, rfl⟩⟩

/-- C7: an example script containing neither the literal opt-out marker
line nor the literal opt-in marker line is included in the run set and
excluded from the screenshot-test set (discovery stems are unique, per the
spec's discovery invariant). -/
theorem unmarked_script_run_not_tested (scripts : List ExampleScript)
    (s : ExampleScript) (hs : s ∈ scripts)
    (hrun : s.leadingLines.contains "# run_example = false" = false)
    (htest : s.leadingLines.contains "# test_example = true" = false)
    (huniq : ∀ t ∈ scripts, t.stem = s.stem → t = s) :
    s ∈ examples_to_run scripts ∧ s.stem ∉ examples_to_test scripts := by
  constructor
  · unfold examples_to_run find_examples
    rw [List.mem_filter]
    refine ⟨hs, ?_⟩
    have hnotmem : "# run_example = false" ∉ s.leadingLines := by
      simpa using hrun
    simp [hnotmem]
  · unfold examples_to_test find_examples
    intro hmem
    rw [List.mem_map] at hmem
    obtain ⟨t, ht, hstem⟩ := hmem
    rw [List.mem_filter] at ht
    have hts : t = s := huniq t ht.1 hstem
    subst hts
    have hmem2 : "# test_example = true" ∈ t.leadingLines := by
      simpa using ht.2
    have hnot : "# test_example = true" ∉ t.leadingLines := by
      simpa using htest
    exact hnot hmem2

/-- Witness for C7 with a one-script repository carrying no markers. -/
theorem unmarked_script_run_not_tested_witness :
    (⟨"demo", ["hello"]⟩ : ExampleScript)
        ∈ examples_to_run [⟨"demo", ["hello"]⟩] ∧
    "demo" ∉ examples_to_test [⟨"demo", ["hello"]⟩] :=
  unmarked_script_run_not_tested [⟨"demo", ["hello"]⟩] ⟨"demo", ["hello"]⟩
    (by decide) (by decide) (by decide) (by decide)

/-- C8 counterexample: `transparency1.py` does not carry the literal
opt-in marker line `# test_example = true` anywhere in its leading
documentation text, and it is not included in the screenshot-test set. -/
theorem transparency1_marker_counterexample :
    transparency1.leadingLines.contains "# test_example = true" = false ∧
    "transparency1" ∉ examples_to_test [transparency1] := by
  exact ⟨by decide, by decide⟩

/-- C8 (amended): `transparency1.py` carries the sphinx-gallery marker
lines (`# sphinx_gallery_pygfx_test = 'run'`), not the harness's literal
opt-in marker `# test_example = true`, so it is excluded from the
screenshot-test set of any discovered script list. -/
theorem transparency1_not_in_test_set (scripts : List ExampleScript) :
    transparency1.leadingLines.contains
        "# sphinx_gallery_pygfx_test = \x27run\x27" = true ∧
    transparency1.leadingLines.contains "# test_example = true" = false ∧
    transparency1 ∉
      find_examples scripts (some "# test_example = true") none := by
  refine ⟨by decide, by decide, ?_⟩
  intro hmem
  unfold find_examples at hmem
  rw [List.mem_filter] at hmem
  exact absurd hmem.2 (by decide)
